import Mathlib

/-!
Shallow embedding of `src/nostr_learning.py`, a small Nostr client script.

The script exposes seven async operations.  Four publish-style operations
(`send_event`, `send_reaction`, `undo_reaction`, `request_event_deletion`)
build a signed Nostr event, open one TLS websocket connection, send the
event frame, and await a single response.  Three query-style operations
(`query_all_events`, `query_kind_0`, `query_kind_1`) send one `REQ` frame
and then loop on `recv`, parsing each inbound frame with `json.loads` and
breaking on the first frame `e` with `e[0] == "EVENT" and
e[1] == subscription_id`.

The embedding models each operation as a pure function from its inputs
(and the sequence of inbound frames the relay would deliver) to an
`OpTrace` recording the connections opened, the frames sent, how many
frames were received, which event payloads were delivered (printed as
`event[2]`), and how the operation exited (normal return, blocked on
`recv`, unhandled Python exception, or websocket handshake failure).

Externals (the `nostr` library, `ssl`, `certifi`, `websockets`) are
modelled at their call boundary: `ClientMessageType.REQUEST` is the string
"REQ", `EventKind.SET_METADATA` is 0 and `EventKind.TEXT_NOTE` is 1,
`Event(pubkey, content, kind, tags)` builds an event record stamped with
the current time, `sign_event` fills in the id and signature (the hash and
the signature scheme are universally quantified parameters, since no claim
depends on their values), `Event.to_message()` is
`json.dumps(["EVENT", event.to_json_object()])`, and
`ssl.create_default_context(cafile=certifi.where())` is a verifying SSL
context backed by the certifi CA bundle.
-/

/-- JSON values, as produced by Python's `json.loads`. -/
inductive Json where
  | null : Json
  | bool : Bool → Json
  | num : Int → Json
  | str : String → Json
  | arr : List Json → Json
  | obj : List (String × Json) → Json

/-- Python `j == s` for a string literal `s`: true exactly when `j` is
that string (a `json.loads` result of any other type compares unequal to
a `str`). -/
def Json.eqStr : Json → String → Bool
  | Json.str t, s => t = s
  | _, _ => false

/-- An inbound wire frame: `some j` if the raw text parses as JSON value
`j`, `none` if `json.loads` would raise (structurally invalid JSON). -/
abbrev RawFrame : Type := Option Json

/-- Python exceptions the receive loops can raise. -/
inductive PyErr where
  | jsonDecodeError : PyErr
  | indexError : PyErr
  | keyError : PyErr
  | typeError : PyErr
deriving DecidableEq, Repr

/-- Python subscripting `v[i]` on a `json.loads` result: lists index by
position (IndexError past the end), strings index to one-character
strings, dicts raise KeyError on an integer key, everything else raises
TypeError. -/
def pyIndex : Json → Nat → Except PyErr Json
  | Json.arr xs, i =>
    match xs[i]? with
    | some v => Except.ok v
    | none => Except.error PyErr.indexError
  | Json.str s, i =>
    match s.data[i]? with
    | some c => Except.ok (Json.str (String.mk [c]))
    | none => Except.error PyErr.indexError
  | Json.obj _, _ => Except.error PyErr.keyError
  | _, _ => Except.error PyErr.typeError

/-- `ssl.create_default_context(cafile=certifi.where())`: certificate
verification on (the default context's default), trust anchored at the
certifi CA bundle. -/
structure SslConfig where
  verify : Bool
  certifiCaBundle : Bool
deriving DecidableEq, Repr

def defaultSslContext : SslConfig :=
  { verify := true, certifiCaBundle := true }

/-- One `websockets.connect(url, ssl=...)` call: the URL and the SSL
context passed (`none` would be a call without the `ssl` keyword). -/
structure ConnAttempt where
  url : String
  ssl : Option SslConfig
deriving DecidableEq, Repr

/-- How an operation finished. -/
inductive OpExit where
  | normal : OpExit
  | blocked : OpExit
  | errored : PyErr → OpExit
  | connectionError : OpExit
deriving DecidableEq, Repr

/-- Observable trace of one operation: connections opened, frames sent,
frames received, event payloads delivered to the caller (printed as
`event[2]`), and the exit status.  Console text other than delivered
payloads is not tracked. -/
structure OpTrace where
  connections : List ConnAttempt
  sentFrames : List Json
  recvCount : Nat
  delivered : List Json
  exit : OpExit

/-! ### Event model (boundary of the `nostr` library) -/

/-- The fields `Event(public_key, content, created_at, kind, tags)` is
constructed from, before id/signature are filled in. -/
structure EventCore where
  public_key : String
  created_at : Nat
  kind : Nat
  tags : List (List String)
  content : String
deriving DecidableEq, Repr

/-- A `nostr.key.PrivateKey` at the boundary the script uses: its public
key's hex form (`private_key.public_key.hex()`) and its raw signing
function over the event id (`sign_event` sets
`event.signature = sign(event.id)`). -/
structure PrivateKey where
  pubHex : String
  signHash : String → String

/-- A signed event: core fields plus computed id and signature. -/
structure SignedEvent where
  core : EventCore
  id : String
  signature : String

/-- `private_key.sign_event(event)`: the event id is the content-addressed
hash of the core fields (`computeId` stands for the library's
sha256-of-canonical-serialization) and the signature is the key's
signature over the id. -/
def signEvent (computeId : EventCore → String) (key : PrivateKey)
    (core : EventCore) : SignedEvent :=
  { core := core, id := computeId core, signature := key.signHash (computeId core) }

/-- `event.to_json_object()`: the wire JSON object of a signed event. -/
def eventToJson (e : SignedEvent) : Json :=
  Json.obj
    [ ("id", Json.str e.id)
    , ("pubkey", Json.str e.core.public_key)
    , ("created_at", Json.num e.core.created_at)
    , ("kind", Json.num e.core.kind)
    , ("tags", Json.arr (e.core.tags.map (fun t => Json.arr (t.map Json.str))))
    , ("content", Json.str e.core.content)
    , ("sig", Json.str e.signature) ]

/-- `event.to_message()` = `json.dumps([ClientMessageType.EVENT,
event.to_json_object()])` where `ClientMessageType.EVENT = "EVENT"`. -/
def eventToMessage (e : SignedEvent) : Json :=
  Json.arr [Json.str "EVENT", eventToJson e]

/-- Field lookup in a JSON object. -/
def objGet (j : Json) (k : String) : Option Json :=
  match j with
  | Json.obj fields => (fields.find? (fun p => p.fst == k)).map Prod.snd
  | _ => none

/-! ### The receive loop of the query operations -/

/-- What the loop body does with one inbound frame, for loop-tracked
subscription id `subId`: `json.loads` (raising on invalid JSON), then
`if event[0] == "EVENT" and event[1] == subscription_id:` (short-circuit,
each subscript able to raise), delivering `event[2]` and breaking on a
match, else falling through to the next `recv`. -/
inductive StepResult where
  | skip : StepResult
  | deliver : Json → StepResult
  | err : PyErr → StepResult

def frameStep (subId : String) (f : RawFrame) : StepResult :=
  match f with
  | none => StepResult.err PyErr.jsonDecodeError
  | some ev =>
    match pyIndex ev 0 with
    | Except.error e => StepResult.err e
    | Except.ok e0 =>
      if e0.eqStr "EVENT" then
        match pyIndex ev 1 with
        | Except.error e => StepResult.err e
        | Except.ok e1 =>
          if e1.eqStr subId then
            match pyIndex ev 2 with
            | Except.error e => StepResult.err e
            | Except.ok e2 => StepResult.deliver e2
          else StepResult.skip
      else StepResult.skip

/-- Result of running the `while True: response = await websocket.recv()`
loop against a finite prefix of the inbound stream: how many frames were
received, what was delivered, and how the loop ended (`blocked` = the
stream ran out and the loop is suspended in `recv`). -/
structure LoopRun where
  consumed : Nat
  delivered : List Json
  exit : OpExit

def queryRecvLoop (subId : String) : List RawFrame → LoopRun
  | [] => { consumed := 0, delivered := [], exit := OpExit.blocked }
  | f :: rest =>
    match frameStep subId f with
    | StepResult.deliver ev =>
      { consumed := 1, delivered := [ev], exit := OpExit.normal }
    | StepResult.err e =>
      { consumed := 1, delivered := [], exit := OpExit.errored e }
    | StepResult.skip =>
      let r := queryRecvLoop subId rest
      { consumed := r.consumed + 1, delivered := r.delivered, exit := r.exit }

/-! ### The seven operations -/

/-- Shared shape of the four publish-style operations: open one websocket
connection with the default certifi SSL context, send one frame, await
one response, print it, return.  `connectOk` models whether the TLS
handshake succeeds; on failure `websockets.connect` raises and the
exception propagates to the caller (no `try` in the source). -/
def oneShotSend (relay : String) (frame : Json) (connectOk : Bool)
    (inbound : List RawFrame) : OpTrace :=
  if connectOk then
    match inbound with
    | [] =>
      { connections := [⟨relay, some defaultSslContext⟩], sentFrames := [frame]
      , recvCount := 0, delivered := [], exit := OpExit.blocked }
    | _ :: _ =>
      { connections := [⟨relay, some defaultSslContext⟩], sentFrames := [frame]
      , recvCount := 1, delivered := [], exit := OpExit.normal }
  else
    { connections := [⟨relay, some defaultSslContext⟩], sentFrames := []
    , recvCount := 0, delivered := [], exit := OpExit.connectionError }

/-- `send_event(relay, event_content, private_key)`: builds
`Event(private_key.public_key.hex(), event_content)` (library defaults:
kind 1, no tags, created_at = now), signs it, sends `event.to_message()`,
awaits one response. -/
def send_event (relay : String) (event_content : String)
    (private_key : PrivateKey) (computeId : EventCore → String) (now : Nat)
    (connectOk : Bool) (inbound : List RawFrame) : OpTrace :=
  let event := signEvent computeId private_key
    { public_key := private_key.pubHex, created_at := now, kind := 1
    , tags := [], content := event_content }
  oneShotSend relay (eventToMessage event) connectOk inbound

/-- `send_reaction(relay, private_key, event_id, reaction)`: builds a
kind-7 event with content `reaction` and tag `["e", event_id]`, signs it,
sends it, awaits one response. -/
def send_reaction (relay : String) (private_key : PrivateKey)
    (event_id : String) (reaction : String) (computeId : EventCore → String)
    (now : Nat) (connectOk : Bool) (inbound : List RawFrame) : OpTrace :=
  let event := signEvent computeId private_key
    { public_key := private_key.pubHex, created_at := now, kind := 7
    , tags := [["e", event_id]], content := reaction }
  oneShotSend relay (eventToMessage event) connectOk inbound

/-- `undo_reaction(relay, private_key, reaction_event_id)`: builds
`Event(pubkey, "", kind=5, tags=[["e", reaction_event_id]])`, signs it,
sends it, awaits one response. -/
def undo_reaction (relay : String) (private_key : PrivateKey)
    (reaction_event_id : String) (computeId : EventCore → String)
    (now : Nat) (connectOk : Bool) (inbound : List RawFrame) : OpTrace :=
  let event := signEvent computeId private_key
    { public_key := private_key.pubHex, created_at := now, kind := 5
    , tags := [["e", reaction_event_id]], content := "" }
  oneShotSend relay (eventToMessage event) connectOk inbound

/-- `request_event_deletion(relay, private_key, event_id)`: builds
`Event(pubkey, "", kind=5, tags=[["e", event_id]])`, signs it, sends it,
awaits one response. -/
def request_event_deletion (relay : String) (private_key : PrivateKey)
    (event_id : String) (computeId : EventCore → String)
    (now : Nat) (connectOk : Bool) (inbound : List RawFrame) : OpTrace :=
  let event := signEvent computeId private_key
    { public_key := private_key.pubHex, created_at := now, kind := 5
    , tags := [["e", event_id]], content := "" }
  oneShotSend relay (eventToMessage event) connectOk inbound

/-- Shared shape of the three query operations: open one websocket
connection with the default certifi SSL context, send the `REQ` frame,
then run the receive loop tracking `subId`. -/
def queryOp (relay : String) (request : Json) (subId : String)
    (connectOk : Bool) (inbound : List RawFrame) : OpTrace :=
  if connectOk then
    let run := queryRecvLoop subId inbound
    { connections := [⟨relay, some defaultSslContext⟩], sentFrames := [request]
    , recvCount := run.consumed, delivered := run.delivered, exit := run.exit }
  else
    { connections := [⟨relay, some defaultSslContext⟩], sentFrames := []
    , recvCount := 0, delivered := [], exit := OpExit.connectionError }

/-- `query_all_events(relay)`: sends `["REQ", "all_events", {}]` while the
loop tracks `subscription_id = "test-subscription-id"`. -/
def query_all_events (relay : String) (connectOk : Bool)
    (inbound : List RawFrame) : OpTrace :=
  let subscription_id := "test-subscription-id"
  let request := Json.arr [Json.str "REQ", Json.str "all_events", Json.obj []]
  queryOp relay request subscription_id connectOk inbound

/-- `Filter(authors=..., kinds=...).to_json_object()` from the nostr
library: a JSON object holding the populated predicates. -/
def filterToJson (authors : List String) (kinds : List Nat) : Json :=
  Json.obj
    [ ("kinds", Json.arr (kinds.map fun k => Json.num k))
    , ("authors", Json.arr (authors.map Json.str)) ]

/-- `query_kind_0(relay, pub_key)`: filter
`{kinds: [EventKind.SET_METADATA], authors: [pub_key]}`
(`SET_METADATA = 0`), request
`[ClientMessageType.REQUEST, subscription_id] + filters.to_json_array()`
with `ClientMessageType.REQUEST = "REQ"`. -/
def query_kind_0 (relay : String) (pub_key : String) (connectOk : Bool)
    (inbound : List RawFrame) : OpTrace :=
  let subscription_id := "test-subscription-id"
  let request := Json.arr
    (Json.str "REQ" :: Json.str subscription_id :: [filterToJson [pub_key] [0]])
  queryOp relay request subscription_id connectOk inbound

/-- `query_kind_1(relay, pub_key)`: filter
`{kinds: [EventKind.TEXT_NOTE], authors: [pub_key]}` (`TEXT_NOTE = 1`),
same request shape as `query_kind_0`. -/
def query_kind_1 (relay : String) (pub_key : String) (connectOk : Bool)
    (inbound : List RawFrame) : OpTrace :=
  let subscription_id := "test-subscription-id"
  let request := Json.arr
    (Json.str "REQ" :: Json.str subscription_id :: [filterToJson [pub_key] [1]])
  queryOp relay request subscription_id connectOk inbound

/-- A well-formed inbound wire frame addressed away from the tracked
subscription id: a JSON array whose first two elements are strings and
which either has a non-"EVENT" type or a different subscription id. -/
def nonMatchingWireFrame (subId : String) (f : RawFrame) : Prop :=
  ∃ ty sid tail, f = some (Json.arr (Json.str ty :: Json.str sid :: tail))
    ∧ (ty ≠ "EVENT" ∨ sid ≠ subId)

/-! ### Helper lemmas about the receive loop -/

theorem frameStep_skip_of_nonMatching (subId : String) (f : RawFrame)
    (h : nonMatchingWireFrame subId f) :
    frameStep subId f = StepResult.skip := by
  obtain ⟨ty, sid, tail, hf, hne⟩ := h
  subst hf
  by_cases hty : ty = "EVENT"
  · subst hty
    rcases hne with h | h
    · exact absurd rfl h
    · simp [frameStep, pyIndex, Json.eqStr, h]
  · simp [frameStep, pyIndex, Json.eqStr, hty]

theorem frameStep_matching (subId : String) (ev : Json) (tail : List Json) :
    frameStep subId
        (some (Json.arr (Json.str "EVENT" :: Json.str subId :: ev :: tail)))
      = StepResult.deliver ev := by
  simp [frameStep, pyIndex, Json.eqStr]

theorem queryRecvLoop_cons_skip (subId : String) (f : RawFrame)
    (rest : List RawFrame) (h : frameStep subId f = StepResult.skip) :
    queryRecvLoop subId (f :: rest)
      = { consumed := (queryRecvLoop subId rest).consumed + 1
        , delivered := (queryRecvLoop subId rest).delivered
        , exit := (queryRecvLoop subId rest).exit } := by
  simp [queryRecvLoop, h]

theorem queryRecvLoop_skips_append (subId : String) (pre rest : List RawFrame)
    (hpre : ∀ f ∈ pre, frameStep subId f = StepResult.skip) :
    queryRecvLoop subId (pre ++ rest)
      = { consumed := pre.length + (queryRecvLoop subId rest).consumed
        , delivered := (queryRecvLoop subId rest).delivered
        , exit := (queryRecvLoop subId rest).exit } := by
  induction pre with
  | nil => simp [queryRecvLoop]
  | cons f pre ih =>
    have hf : frameStep subId f = StepResult.skip := hpre f (by simp)
    have ih2 := ih (fun g hg => hpre g (by simp [hg]))
    rw [List.cons_append, queryRecvLoop_cons_skip subId f (pre ++ rest) hf, ih2]
    simp only [LoopRun.mk.injEq, List.length_cons, and_true]
    omega

/-! ### Claims -/

/-- C10: `undo_reaction` and `request_event_deletion` build the same
kind-5 deletion event (caller's public key, empty content, the single tag
`["e", event_id]`, the same id and signature given the same signing key
and clock) and produce identical traces — same connection, same sent
frame, same receive behaviour, same exit; they differ only in console
text, which the trace does not track. -/
theorem undo_reaction_eq_request_event_deletion
    (relay event_id : String) (key : PrivateKey)
    (computeId : EventCore → String) (now : Nat) (connectOk : Bool)
    (inbound : List RawFrame) :
    undo_reaction relay key event_id computeId now connectOk inbound
      = request_event_deletion relay key event_id computeId now connectOk inbound
    ∧ (undo_reaction relay key event_id computeId now true inbound).sentFrames
      = [eventToMessage (signEvent computeId key
          { public_key := key.pubHex, created_at := now, kind := 5
          , tags := [["e", event_id]], content := "" })] := by
  constructor
  · rfl
  · cases inbound <;> rfl

/-- C7: `request_event_deletion` publishes a kind-5 event with empty
content, the caller's public key as pubkey, and the tag `["e", event_id]`
naming the event to delete; it sends the frame and returns normally
whatever response the relay gives (honoring the deletion or not). -/
theorem request_event_deletion_publishes_kind5
    (relay event_id : String) (key : PrivateKey)
    (computeId : EventCore → String) (now : Nat) (response : RawFrame) :
    ∃ e : SignedEvent,
      (request_event_deletion relay key event_id computeId now true
          [response]).sentFrames = [eventToMessage e]
      ∧ e.core.kind = 5
      ∧ e.core.content = ""
      ∧ e.core.public_key = key.pubHex
      ∧ e.core.tags = [["e", event_id]]
      ∧ (request_event_deletion relay key event_id computeId now true
          [response]).exit = OpExit.normal :=
  ⟨signEvent computeId key
      { public_key := key.pubHex, created_at := now, kind := 5
      , tags := [["e", event_id]], content := "" }
  , rfl, rfl, rfl, rfl, rfl, rfl⟩

/-- C8: each subscription request the three query operations send is a
JSON array whose first element is the string "REQ", whose second element
is the subscription id, followed by the filter objects, each of which is
a JSON object. -/
theorem subscription_requests_match_wire_format
    (relay pub_key : String) (inbound : List RawFrame) :
    (query_all_events relay true inbound).sentFrames
        = [Json.arr (Json.str "REQ" :: Json.str "all_events" :: [Json.obj []])]
    ∧ (query_kind_0 relay pub_key true inbound).sentFrames
        = [Json.arr (Json.str "REQ" :: Json.str "test-subscription-id"
            :: [filterToJson [pub_key] [0]])]
    ∧ (query_kind_1 relay pub_key true inbound).sentFrames
        = [Json.arr (Json.str "REQ" :: Json.str "test-subscription-id"
            :: [filterToJson [pub_key] [1]])]
    ∧ (∀ authors kinds, ∃ fields, filterToJson authors kinds = Json.obj fields) :=
  ⟨rfl, rfl, rfl, fun _ _ => ⟨_, rfl⟩⟩

/-- C9: every one of the seven operations passes the verifying
certifi-backed SSL context to its single `websockets.connect` call, and a
failed handshake surfaces as a connection error to the caller (nothing in
the source catches it). -/
theorem every_connection_uses_verified_ssl
    (relay c pub_key event_id reaction : String) (key : PrivateKey)
    (computeId : EventCore → String) (now : Nat) (connectOk : Bool)
    (inbound : List RawFrame) :
    (defaultSslContext.verify = true ∧ defaultSslContext.certifiCaBundle = true)
    ∧ (send_event relay c key computeId now connectOk inbound).connections
        = [⟨relay, some defaultSslContext⟩]
    ∧ (send_reaction relay key event_id reaction computeId now connectOk
        inbound).connections = [⟨relay, some defaultSslContext⟩]
    ∧ (undo_reaction relay key event_id computeId now connectOk
        inbound).connections = [⟨relay, some defaultSslContext⟩]
    ∧ (request_event_deletion relay key event_id computeId now connectOk
        inbound).connections = [⟨relay, some defaultSslContext⟩]
    ∧ (query_all_events relay connectOk inbound).connections
        = [⟨relay, some defaultSslContext⟩]
    ∧ (query_kind_0 relay pub_key connectOk inbound).connections
        = [⟨relay, some defaultSslContext⟩]
    ∧ (query_kind_1 relay pub_key connectOk inbound).connections
        = [⟨relay, some defaultSslContext⟩]
    ∧ (send_event relay c key computeId now false inbound).exit
        = OpExit.connectionError
    ∧ (send_reaction relay key event_id reaction computeId now false
        inbound).exit = OpExit.connectionError
    ∧ (undo_reaction relay key event_id computeId now false inbound).exit
        = OpExit.connectionError
    ∧ (request_event_deletion relay key event_id computeId now false
        inbound).exit = OpExit.connectionError
    ∧ (query_all_events relay false inbound).exit = OpExit.connectionError
    ∧ (query_kind_0 relay pub_key false inbound).exit = OpExit.connectionError
    ∧ (query_kind_1 relay pub_key false inbound).exit
        = OpExit.connectionError := by
  cases connectOk <;> cases inbound <;>
    exact ⟨⟨rfl, rfl⟩, rfl, rfl, rfl, rfl, rfl, rfl, rfl, rfl, rfl, rfl, rfl,
      rfl, rfl, rfl⟩

theorem Json.eqStr_eq {j : Json} {s : String} (h : j.eqStr s = true) :
    j = Json.str s := by
  cases j <;> simp_all [Json.eqStr]

theorem pyIndex_arr_ok {xs : List Json} {i : Nat} {v : Json}
    (h : pyIndex (Json.arr xs) i = Except.ok v) : xs[i]? = some v := by
  rcases hg : xs[i]? with _ | w
  · simp [pyIndex, hg] at h
  · simp [pyIndex, hg] at h
    rw [h]

/-- A loop step only delivers from a frame that parses as a JSON array
whose first element is the string "EVENT", whose second element is the
tracked subscription id, and whose third element is the delivered
payload. -/
theorem frameStep_deliver_shape (subId : String) (f : RawFrame) (ev : Json)
    (h : frameStep subId f = StepResult.deliver ev) :
    ∃ xs, f = some (Json.arr xs) ∧ xs[0]? = some (Json.str "EVENT")
      ∧ xs[1]? = some (Json.str subId) ∧ xs[2]? = some ev := by
  rcases f with _ | j
  · simp [frameStep] at h
  rcases j with _ | b | n | s | xs | flds
  · simp [frameStep, pyIndex] at h
  · simp [frameStep, pyIndex] at h
  · simp [frameStep, pyIndex] at h
  · exfalso
    rcases hg : s.data[0]? with _ | c
    · simp [frameStep, pyIndex, hg] at h
    · have hc : ¬ String.mk [c] = "EVENT" := by
        intro hmk
        have hlen : (String.mk [c]).length = ("EVENT" : String).length :=
          congrArg String.length hmk
        have h1 : (String.mk [c]).length = 1 := rfl
        have h5 : ("EVENT" : String).length = 5 := rfl
        rw [h1, h5] at hlen
        exact absurd hlen (by omega)
      simp [frameStep, pyIndex, hg, Json.eqStr, hc] at h
  · simp only [frameStep] at h
    split at h
    · simp at h
    case _ e0 heq0 =>
      split at h
      case isFalse => simp at h
      case isTrue hEv =>
        split at h
        · simp at h
        case _ e1 heq1 =>
          split at h
          case isFalse => simp at h
          case isTrue hSub =>
            split at h
            · simp at h
            case _ e2 heq2 =>
              injection h with hh
              refine ⟨xs, rfl, ?_, ?_, ?_⟩
              · rw [pyIndex_arr_ok heq0, Json.eqStr_eq hEv]
              · rw [pyIndex_arr_ok heq1, Json.eqStr_eq hSub]
              · rw [pyIndex_arr_ok heq2, hh]
  · simp [frameStep, pyIndex] at h

/-- The receive loop delivers a payload only if some inbound frame is a
JSON array whose second element is the tracked subscription id. -/
theorem queryRecvLoop_delivers_only_tracked (subId : String)
    (frames : List RawFrame) (ev : Json)
    (h : (queryRecvLoop subId frames).delivered = [ev]) :
    ∃ f ∈ frames, ∃ xs, f = some (Json.arr xs)
      ∧ xs[1]? = some (Json.str subId) := by
  induction frames with
  | nil => simp [queryRecvLoop] at h
  | cons f rest ih =>
    cases hstep : frameStep subId f with
    | skip =>
      have hcons := queryRecvLoop_cons_skip subId f rest hstep
      rw [hcons] at h
      obtain ⟨g, hg, xs, hgs, hx⟩ := ih h
      exact ⟨g, List.mem_cons_of_mem f hg, xs, hgs, hx⟩
    | err e =>
      have hnil : (queryRecvLoop subId (f :: rest)).delivered = [] := by
        simp [queryRecvLoop, hstep]
      rw [hnil] at h
      simp at h
    | deliver ev2 =>
      obtain ⟨xs, hfs, _, hx1, _⟩ := frameStep_deliver_shape subId f ev2 hstep
      exact ⟨f, List.mem_cons_self f rest, xs, hfs, hx1⟩

/-- C1: against a stream of well-formed frames addressed away from the
subscription (for instance the non-matching kind-0 event, under another
subscription id) followed by the first frame
`["EVENT", "test-subscription-id", ev]` for the requested subscription,
`query_kind_1` delivers exactly that one event payload — the first frame
with the matching subscription id — and then terminates normally, having
received exactly the frames up to and including the match. -/
theorem query_kind_1_delivers_exactly_first_match
    (relay pub_key : String) (pre post : List RawFrame) (ev : Json)
    (hpre : ∀ f ∈ pre, nonMatchingWireFrame "test-subscription-id" f) :
    query_kind_1 relay pub_key true
        (pre ++ some (Json.arr [Json.str "EVENT",
          Json.str "test-subscription-id", ev]) :: post)
      = { connections := [⟨relay, some defaultSslContext⟩]
        , sentFrames := [Json.arr (Json.str "REQ"
            :: Json.str "test-subscription-id" :: [filterToJson [pub_key] [1]])]
        , recvCount := pre.length + 1
        , delivered := [ev]
        , exit := OpExit.normal } := by
  have hpre2 : ∀ f ∈ pre, frameStep "test-subscription-id" f = StepResult.skip :=
    fun f hf => frameStep_skip_of_nonMatching _ f (hpre f hf)
  have hloop := queryRecvLoop_skips_append "test-subscription-id" pre
    (some (Json.arr [Json.str "EVENT", Json.str "test-subscription-id", ev])
      :: post) hpre2
  have hmatch : queryRecvLoop "test-subscription-id"
      (some (Json.arr [Json.str "EVENT", Json.str "test-subscription-id", ev])
        :: post)
      = { consumed := 1, delivered := [ev], exit := OpExit.normal } := by
    have hstep := frameStep_matching "test-subscription-id" ev []
    simp [queryRecvLoop, hstep]
  rw [hmatch] at hloop
  have hdef : query_kind_1 relay pub_key true
      (pre ++ some (Json.arr [Json.str "EVENT",
        Json.str "test-subscription-id", ev]) :: post)
      = { connections := [⟨relay, some defaultSslContext⟩]
        , sentFrames := [Json.arr (Json.str "REQ"
            :: Json.str "test-subscription-id" :: [filterToJson [pub_key] [1]])]
        , recvCount := (queryRecvLoop "test-subscription-id"
            (pre ++ some (Json.arr [Json.str "EVENT",
              Json.str "test-subscription-id", ev]) :: post)).consumed
        , delivered := (queryRecvLoop "test-subscription-id"
            (pre ++ some (Json.arr [Json.str "EVENT",
              Json.str "test-subscription-id", ev]) :: post)).delivered
        , exit := (queryRecvLoop "test-subscription-id"
            (pre ++ some (Json.arr [Json.str "EVENT",
              Json.str "test-subscription-id", ev]) :: post)).exit } := rfl
  rw [hdef, hloop]

/-- Witness for C1 at a concrete stream: one non-matching kind-0 event
under another subscription id, then the matching kind-1 event. -/
theorem query_kind_1_delivers_exactly_first_match_witness :
    query_kind_1 "wss://relay.example.com" "abc" true
        ([some (Json.arr [Json.str "EVENT", Json.str "other-sub",
            Json.obj [("kind", Json.num 0)]])]
          ++ some (Json.arr [Json.str "EVENT", Json.str "test-subscription-id",
              Json.obj [("kind", Json.num 1)]]) :: [])
      = { connections := [⟨"wss://relay.example.com", some defaultSslContext⟩]
        , sentFrames := [Json.arr (Json.str "REQ"
            :: Json.str "test-subscription-id" :: [filterToJson ["abc"] [1]])]
        , recvCount := 2
        , delivered := [Json.obj [("kind", Json.num 1)]]
        , exit := OpExit.normal } := by
  have h := query_kind_1_delivers_exactly_first_match "wss://relay.example.com"
    "abc"
    [some (Json.arr [Json.str "EVENT", Json.str "other-sub",
      Json.obj [("kind", Json.num 0)]])]
    [] (Json.obj [("kind", Json.num 1)])
    (fun f hf => by
      rw [List.mem_singleton] at hf
      exact ⟨"EVENT", "other-sub", [Json.obj [("kind", Json.num 0)]], hf,
        Or.inr (by decide)⟩)
  exact h

/-- C2: `query_all_events` sends its REQ under subscription id
"all_events" but its loop compares inbound frames against the variable
`subscription_id = "test-subscription-id"`: a stream consisting solely of
EVENT frames tagged "all_events" — the id the function actually opened —
never satisfies the break condition, leaving the loop blocked with
nothing delivered; the loop can only deliver (and hence terminate
normally) on a frame carrying the never-requested id
"test-subscription-id". -/
theorem query_all_events_break_condition_never_true_for_own_sub
    (relay : String) :
    (∀ inbound, (query_all_events relay true inbound).sentFrames
        = [Json.arr (Json.str "REQ" :: Json.str "all_events"
            :: [Json.obj []])])
    ∧ (∀ inbound, (∀ f ∈ inbound, ∃ tail, f = some (Json.arr
          (Json.str "EVENT" :: Json.str "all_events" :: tail)))
        → (query_all_events relay true inbound).exit = OpExit.blocked
          ∧ (query_all_events relay true inbound).delivered = [])
    ∧ (∀ inbound ev, (query_all_events relay true inbound).delivered = [ev]
        → ∃ f ∈ inbound, ∃ xs, f = some (Json.arr xs)
            ∧ xs[1]? = some (Json.str "test-subscription-id")) := by
  refine ⟨fun _ => rfl, fun inbound h => ?_, fun inbound ev h => ?_⟩
  · have hskips : ∀ f ∈ inbound,
        frameStep "test-subscription-id" f = StepResult.skip := by
      intro f hf
      obtain ⟨tail, ht⟩ := h f hf
      exact frameStep_skip_of_nonMatching _ f
        ⟨"EVENT", "all_events", tail, ht, Or.inr (by decide)⟩
    have hloop := queryRecvLoop_skips_append "test-subscription-id" inbound
      [] hskips
    rw [List.append_nil] at hloop
    exact ⟨congrArg LoopRun.exit hloop, congrArg LoopRun.delivered hloop⟩
  · exact queryRecvLoop_delivers_only_tracked "test-subscription-id" inbound
      ev h

/-- Witness for C2 at a concrete stream: one EVENT frame tagged with the
"all_events" id the function requested leaves the loop blocked. -/
theorem query_all_events_break_condition_never_true_for_own_sub_witness :
    (query_all_events "wss://relay.example.com" true
        [some (Json.arr [Json.str "EVENT", Json.str "all_events",
          Json.null])]).exit = OpExit.blocked := by
  have h := (query_all_events_break_condition_never_true_for_own_sub
    "wss://relay.example.com").2.1
  exact (h _ (fun f hf => by
    rw [List.mem_singleton] at hf
    exact ⟨[Json.null], hf⟩)).1

/-- C3 counterexample: a stream whose first frame is structurally invalid
JSON, followed by a perfectly matching EVENT frame — `query_kind_0`
raises the decode error on the bad frame, receives nothing further, and
delivers nothing: the loop does not survive the frame. -/
theorem invalid_json_frame_kills_query_loop :
    (query_kind_0 "wss://relay.example.com" "abc" true
        [none, some (Json.arr [Json.str "EVENT",
          Json.str "test-subscription-id", Json.null])]).exit
      = OpExit.errored PyErr.jsonDecodeError
    ∧ (query_kind_0 "wss://relay.example.com" "abc" true
        [none, some (Json.arr [Json.str "EVENT",
          Json.str "test-subscription-id", Json.null])]).delivered = []
    ∧ (query_kind_0 "wss://relay.example.com" "abc" true
        [none, some (Json.arr [Json.str "EVENT",
          Json.str "test-subscription-id", Json.null])]).recvCount = 1 :=
  ⟨rfl, rfl, rfl⟩

/-- C3 (amended): a structurally-invalid-JSON frame is not discarded —
`json.loads` raises an unhandled decode error that terminates the query
after that single frame, whatever follows; only a frame that parses as a
JSON array with an unrecognized (non-"EVENT") string type is silently
skipped, with the loop continuing over the rest of the session. -/
theorem invalid_json_errors_unrecognized_type_skipped
    (relay pub_key ty : String) (tail : List Json) (rest : List RawFrame)
    (hty : ty ≠ "EVENT") :
    (query_kind_0 relay pub_key true (none :: rest)).exit
        = OpExit.errored PyErr.jsonDecodeError
    ∧ (query_kind_0 relay pub_key true (none :: rest)).delivered = []
    ∧ (query_kind_0 relay pub_key true (none :: rest)).recvCount = 1
    ∧ (query_kind_0 relay pub_key true
          (some (Json.arr (Json.str ty :: tail)) :: rest)).exit
        = (query_kind_0 relay pub_key true rest).exit
    ∧ (query_kind_0 relay pub_key true
          (some (Json.arr (Json.str ty :: tail)) :: rest)).delivered
        = (query_kind_0 relay pub_key true rest).delivered := by
  have hstep : frameStep "test-subscription-id"
      (some (Json.arr (Json.str ty :: tail))) = StepResult.skip := by
    simp [frameStep, pyIndex, Json.eqStr, hty]
  have hloop := queryRecvLoop_cons_skip "test-subscription-id"
    (some (Json.arr (Json.str ty :: tail))) rest hstep
  have hexit := congrArg LoopRun.exit hloop
  have hdel := congrArg LoopRun.delivered hloop
  exact ⟨rfl, rfl, rfl, hexit, hdel⟩

/-- Witness for the amended C3 at concrete inputs: invalid JSON errors
the loop; a valid-JSON NOTICE frame is skipped and the loop lives on. -/
theorem invalid_json_errors_unrecognized_type_skipped_witness :
    (query_kind_0 "wss://relay.example.com" "abc" true [none]).exit
        = OpExit.errored PyErr.jsonDecodeError
    ∧ (query_kind_0 "wss://relay.example.com" "abc" true
        [some (Json.arr [Json.str "NOTICE", Json.str "hello"])]).exit
        = OpExit.blocked := by
  have h := invalid_json_errors_unrecognized_type_skipped
    "wss://relay.example.com" "abc" "NOTICE" [Json.str "hello"] []
    (by decide)
  exact ⟨h.1, h.2.2.2.1⟩

/-- C4 counterexample: `send_event` produces the very same trace whether
the relay's OK frame rejects the event (`["OK", id, false,
"blocked: spam"]`) or accepts it — at this concrete input it yields no
`Rejected("blocked: spam")`, nor any classification at all. -/
theorem send_event_treats_rejection_like_acceptance :
    send_event "wss://relay.example.com" "hi"
        { pubHex := "ab", signHash := fun s => s } (fun _ => "cafe") 0 true
        [some (Json.arr [Json.str "OK", Json.str "cafe", Json.bool false,
          Json.str "blocked: spam"])]
      = send_event "wss://relay.example.com" "hi"
        { pubHex := "ab", signHash := fun s => s } (fun _ => "cafe") 0 true
        [some (Json.arr [Json.str "OK", Json.str "cafe", Json.bool true,
          Json.str ""])] := rfl

/-- C4 (amended): on any single response frame — the rejection
`["OK", <id>, false, "blocked: spam"]` included — `send_event` receives
the frame, prints its raw text, and returns normally: the response is
never parsed or classified, and the trace does not depend on the frame at
all, so no distinct Rejected result exists. -/
theorem send_event_never_classifies_response
    (relay c : String) (key : PrivateKey) (computeId : EventCore → String)
    (now : Nat) (f g : RawFrame) :
    send_event relay c key computeId now true [f]
        = send_event relay c key computeId now true [g]
    ∧ (send_event relay c key computeId now true [f]).exit = OpExit.normal
    ∧ (send_event relay c key computeId now true [f]).delivered = [] :=
  ⟨rfl, rfl, rfl⟩

/-- C5 counterexample: against a stream whose first frame is a well-formed
EVENT frame for another subscription id, `query_kind_1` receives two
frames before exiting — not the single request/response exchange the
claim states for every operation. -/
theorem query_kind_1_receives_two_frames :
    (query_kind_1 "wss://relay.example.com" "abc" true
        [ some (Json.arr [Json.str "EVENT", Json.str "other", Json.null])
        , some (Json.arr [Json.str "EVENT", Json.str "test-subscription-id",
            Json.null])]).recvCount = 2 := rfl

/-- C5 (amended): every operation opens exactly one connection and sends
exactly one frame; the four publish-style operations then receive exactly
one frame, while the three query operations receive frames until the
first matching EVENT frame — possibly more than one. -/
theorem every_op_one_connection_one_send
    (relay c pub_key event_id reaction : String) (key : PrivateKey)
    (computeId : EventCore → String) (now : Nat) (response : RawFrame)
    (rest inbound : List RawFrame) :
    ((send_event relay c key computeId now true
        (response :: rest)).connections.length = 1
      ∧ (send_event relay c key computeId now true
          (response :: rest)).sentFrames.length = 1
      ∧ (send_event relay c key computeId now true
          (response :: rest)).recvCount = 1)
    ∧ ((send_reaction relay key event_id reaction computeId now true
          (response :: rest)).connections.length = 1
      ∧ (send_reaction relay key event_id reaction computeId now true
          (response :: rest)).sentFrames.length = 1
      ∧ (send_reaction relay key event_id reaction computeId now true
          (response :: rest)).recvCount = 1)
    ∧ ((undo_reaction relay key event_id computeId now true
          (response :: rest)).connections.length = 1
      ∧ (undo_reaction relay key event_id computeId now true
          (response :: rest)).sentFrames.length = 1
      ∧ (undo_reaction relay key event_id computeId now true
          (response :: rest)).recvCount = 1)
    ∧ ((request_event_deletion relay key event_id computeId now true
          (response :: rest)).connections.length = 1
      ∧ (request_event_deletion relay key event_id computeId now true
          (response :: rest)).sentFrames.length = 1
      ∧ (request_event_deletion relay key event_id computeId now true
          (response :: rest)).recvCount = 1)
    ∧ ((query_all_events relay true inbound).connections.length = 1
      ∧ (query_all_events relay true inbound).sentFrames.length = 1
      ∧ (query_all_events relay true inbound).recvCount
          = (queryRecvLoop "test-subscription-id" inbound).consumed)
    ∧ ((query_kind_0 relay pub_key true inbound).connections.length = 1
      ∧ (query_kind_0 relay pub_key true inbound).sentFrames.length = 1
      ∧ (query_kind_0 relay pub_key true inbound).recvCount
          = (queryRecvLoop "test-subscription-id" inbound).consumed)
    ∧ ((query_kind_1 relay pub_key true inbound).connections.length = 1
      ∧ (query_kind_1 relay pub_key true inbound).sentFrames.length = 1
      ∧ (query_kind_1 relay pub_key true inbound).recvCount
          = (queryRecvLoop "test-subscription-id" inbound).consumed) :=
  ⟨⟨rfl, rfl, rfl⟩, ⟨rfl, rfl, rfl⟩, ⟨rfl, rfl, rfl⟩, ⟨rfl, rfl, rfl⟩,
    ⟨rfl, rfl, rfl⟩, ⟨rfl, rfl, rfl⟩, ⟨rfl, rfl, rfl⟩⟩

/-- C6: the receive loop of `query_kind_0` silently drops a well-formed
frame that is not an EVENT frame for the tracked subscription — whether
its type is not "EVENT" or its subscription id differs — delivering
nothing from it, raising no error, and continuing exactly as it would on
the remaining stream, one received frame later. -/
theorem query_kind_0_drops_nonmatching_frames
    (relay pub_key : String) (f : RawFrame) (rest : List RawFrame)
    (hf : nonMatchingWireFrame "test-subscription-id" f) :
    (query_kind_0 relay pub_key true (f :: rest)).delivered
        = (query_kind_0 relay pub_key true rest).delivered
    ∧ (query_kind_0 relay pub_key true (f :: rest)).exit
        = (query_kind_0 relay pub_key true rest).exit
    ∧ (query_kind_0 relay pub_key true (f :: rest)).recvCount
        = (query_kind_0 relay pub_key true rest).recvCount + 1 := by
  have hloop := queryRecvLoop_cons_skip "test-subscription-id" f rest
    (frameStep_skip_of_nonMatching _ f hf)
  have hdel := congrArg LoopRun.delivered hloop
  have hexit := congrArg LoopRun.exit hloop
  have hcount := congrArg LoopRun.consumed hloop
  exact ⟨hdel, hexit, hcount⟩

/-- Witness for C6 at a concrete frame: a NOTICE frame is dropped with
nothing delivered and no error. -/
theorem query_kind_0_drops_nonmatching_frames_witness :
    (query_kind_0 "wss://relay.example.com" "abc" true
        [some (Json.arr [Json.str "NOTICE", Json.str "hi"])]).delivered = []
    ∧ (query_kind_0 "wss://relay.example.com" "abc" true
        [some (Json.arr [Json.str "NOTICE", Json.str "hi"])]).exit
        = OpExit.blocked := by
  have h := query_kind_0_drops_nonmatching_frames "wss://relay.example.com"
    "abc" (some (Json.arr [Json.str "NOTICE", Json.str "hi"])) []
    ⟨"NOTICE", "hi", [], rfl, Or.inl (by decide)⟩
  exact ⟨h.1, h.2.1⟩
